import Mathlib

/-!
Verification development for the Pana2Orbit data-operations repository.

The Python sources are shallowly embedded as executable Lean definitions:

* numeric data uses `ℚ` (exact rationals standing for Python floats),
* a missing / NaN / NaT value is `Option.none`,
* a Python exception is the `Except.error` branch of an `Except` result,
* a pandas `DataFrame` is a `List` of row structures (plus, where a claim
  needs it, an explicit column list),
* external collaborators (the BigQuery service, the AirNow HTTP endpoint,
  the EarthData catalog) are passed in as explicit outcome values so that
  the control flow of the scripts around them can be proved about.

Sections follow the source files:
`src/etl/airnow&merra-2/merra-2.py`, `src/etl/airnow&merra-2/airnow.py`,
`src/services/earth_data/client.py`, `src/services/google/bigquery.py`,
`src/etl/extract_load_no2.py`.
-/

/-! ## Polygon containment

All scripts delegate point-in-polygon testing to
`matplotlib.path.Path.contains_points` (with the default `radius = 0`),
whose `point_in_path_impl` is Haines' crossings-multiply even-odd test
(Graphics Gems IV): for each edge, y-flags `yflag0 = (y0 >= ty)` and
`yflag1 = (y1 >= ty)` are compared, and when they differ the edge
toggles the inside flag iff the division-free intercept test
`((y1 - ty)*(x0 - x1) >= (x1 - tx)*(y0 - y1)) == yflag1` holds.  We
embed that algorithm over exact rationals.  A `none` coordinate models
a NaN, for which every comparison is false, hence the flag never
toggles. -/

/-- One edge test of matplotlib's `point_in_path_impl` (Haines'
crossings-multiply): does edge `a`-`b` toggle the inside flag for
query point `p`?  Mirrors
`yflag0 != yflag1 && (((vty1 - ty) * (vtx0 - vtx1) >=
(vtx1 - tx) * (vty0 - vty1)) == yflag1)` with
`yflag = (vty >= ty)`. -/
def edgeToggle (p a b : ℚ × ℚ) : Bool :=
  (decide (a.2 ≥ p.2) != decide (b.2 ≥ p.2)) &&
    (decide ((b.2 - p.2) * (a.1 - b.1) ≥ (b.1 - p.1) * (a.2 - b.2)) ==
      decide (b.2 ≥ p.2))

/-- `matplotlib.path.Path(poly).contains_point(p)` for a closed polygon
`poly` (first vertex repeated last): even-odd toggle count over the
consecutive edges.  (matplotlib's implicit path-closing edge runs from
the last vertex back to the first; here those coincide, so that edge's
y-flags are equal and it never toggles.) -/
def containsPoint (poly : List (ℚ × ℚ)) (p : ℚ × ℚ) : Bool :=
  (poly.zip poly.tail).foldl
    (fun inside e => if edgeToggle p e.1 e.2 then !inside else inside) false

/-- `Path.contains_points`: one boolean per query point. -/
def containsPoints (poly : List (ℚ × ℚ)) (pts : List (ℚ × ℚ)) : List Bool :=
  pts.map (containsPoint poly)

/-- Containment on possibly-NaN coordinates: with a NaN coordinate every
float comparison in the crossing test is false, so the point is never
inside. -/
def containsOpt (poly : List (ℚ × ℚ)) (lon lat : Option ℚ) : Bool :=
  match lon, lat with
  | some lo, some la => containsPoint poly (lo, la)
  | _, _ => false

/-- The California polygon `polygon_coords` shared verbatim by
`merra-2.py`, `airnow.py` and `no2_cloud_run.py` (lon, lat pairs, ring
closed by repeating the first vertex). -/
def polygon_coords : List (ℚ × ℚ) :=
  [ (-120.0091050, 41.9727325),
    (-124.6045661, 41.8898826),
    (-120.4462801, 33.9044735),
    (-117.1073262, 32.6184122),
    (-114.2955756, 32.6554188),
    (-114.1637748, 34.3047333),
    (-114.7349117, 35.0995465),
    (-120.0948112, 39.0254518),
    (-120.0091050, 41.9727325) ]

/-- The spec's scenario-C test square
`[(-1,-1),(1,-1),(1,1),(-1,1),(-1,-1)]`. -/
def scenarioSquare : List (ℚ × ℚ) :=
  [(-1, -1), (1, -1), (1, 1), (-1, 1), (-1, -1)]

/-! ## Shared warehouse (BigQuery) model

The scripts observe the warehouse only through `get_dataset`,
`create_dataset` and `load_table_from_dataframe`.  We model an error
raised by the service as a `BQErr` (message plus optional HTTP code), a
remote call as a `BQAction` recorded in a trace, and the destination
tables as an association list from destination string to row list, with
the two write dispositions' documented semantics. -/

/-- An exception raised by the BigQuery client library:
its string form and its optional HTTP status code. -/
structure BQErr where
  msg : String
  code : Option Nat
deriving DecidableEq

/-- Does `needle` start `hay`? -/
def startsWithChars : List Char → List Char → Bool
  | [], _ => true
  | _ :: _, [] => false
  | c :: cs, d :: ds => c == d && startsWithChars cs ds

/-- Does `needle` occur contiguously inside `hay`?  (Python's `in` on
strings.) -/
def containsSub (needle : List Char) : List Char → Bool
  | [] => needle.isEmpty
  | d :: ds => startsWithChars needle (d :: ds) || containsSub needle ds

/-- `"Not found" in str(e) or getattr(e, 'code', None) == 404`
(`bigquery.py`, line 78). -/
def isNotFound (e : BQErr) : Bool :=
  containsSub "Not found".toList e.msg.toList || e.code == some 404

/-- The write disposition of a load job. -/
inductive WriteDisp where
  | append
  | truncate
deriving DecidableEq

/-- One remote call issued to the warehouse. -/
inductive BQAction where
  | getDataset (name : String)
  | createDataset (name : String) (location : String)
  | loadJob (dest : String) (mode : WriteDisp) (nrows : Nat)
deriving DecidableEq

/-- The warehouse: destination string → current rows. -/
def Warehouse (α : Type) : Type := List (String × List α)

/-- Rows currently in `dest` (a table absent from the warehouse is
empty). -/
def getTable {α : Type} : Warehouse α → String → List α
  | [], _ => []
  | (n, rs) :: w, dest => if n = dest then rs else getTable w dest

/-- Overwrite the rows of `dest`. -/
def setTable {α : Type} : Warehouse α → String → List α → Warehouse α
  | [], dest, rows => [(dest, rows)]
  | (n, rs) :: w, dest, rows =>
    if n = dest then (dest, rows) :: w else (n, rs) :: setTable w dest rows

/-- Documented semantics of the two write dispositions:
`WRITE_TRUNCATE` replaces the table's contents, `WRITE_APPEND` adds to
them. -/
def applyLoad {α : Type} (w : Warehouse α) (dest : String) (mode : WriteDisp)
    (rows : List α) : Warehouse α :=
  match mode with
  | .truncate => setTable w dest rows
  | .append => setTable w dest (getTable w dest ++ rows)

/-- Number of load jobs in a call trace. -/
def countLoads : List BQAction → Nat
  | [] => 0
  | .loadJob _ _ _ :: t => countLoads t + 1
  | _ :: t => countLoads t

theorem getTable_setTable {α : Type} (w : Warehouse α) (dest : String)
    (rows : List α) : getTable (setTable w dest rows) dest = rows := by
  induction w with
  | nil => simp [setTable, getTable]
  | cons p w ih =>
    obtain ⟨n, rs⟩ := p
    by_cases h : n = dest <;> simp [setTable, getTable, h, ih]

/-! ## `src/services/google/bigquery.py` — `BigQueryClient`

The outcomes of the two remote calls the method makes before the load
(`client.get_dataset`, `client.create_dataset`) are passed in as
`Except BQErr Unit` values.  The load job itself is modelled as
succeeding (its row-level errors are only logged by the code and no
claim concerns them). -/

namespace BigQueryClient

/-- Lines 71–85 of `bigquery.py`: ensure the dataset exists.  On a
`get_dataset` exception, create the dataset in the configured location
when the error looks like "not found", otherwise log and `raise`.
A `create_dataset` exception (inside the handler) propagates. -/
def ensureDatasetBlock (check create : Except BQErr Unit)
    (dataset location : String) : Except BQErr (List BQAction) :=
  match check with
  | .ok _ => .ok [.getDataset dataset]
  | .error e =>
    if isNotFound e then
      match create with
      | .ok _ => .ok [.getDataset dataset, .createDataset dataset location]
      | .error e2 => .error e2
    else .error e

/-- `destination = f"{project}.{dataset}.{table}"` when a project id is
known, else `f"{dataset}.{table}"` (lines 90–94). -/
def destination (projectId : Option String) (dataset tableId : String) : String :=
  match projectId with
  | some p => p ++ "." ++ dataset ++ "." ++ tableId
  | none => dataset ++ "." ++ tableId

/-- `BigQueryClient.upload_data_from_dataframe` (lines 62–102): ensure
the dataset exists, then load the dataframe with
`write_disposition=WRITE_TRUNCATE`.  There is no empty-table guard.
Returns the new warehouse state and the trace of remote calls. -/
def upload_data_from_dataframe {α : Type} (w : Warehouse α)
    (check create : Except BQErr Unit) (df : List α)
    (dataset tableId : String) (projectId : Option String) (location : String) :
    Except BQErr (Warehouse α × List BQAction) :=
  match ensureDatasetBlock check create dataset location with
  | .error e => .error e
  | .ok acts =>
    let dest := destination projectId dataset tableId
    .ok (applyLoad w dest .truncate df,
         acts ++ [.loadJob dest .truncate df.length])

end BigQueryClient

/-! ## Script-level BigQuery helpers

`airnow.py` (lines 145–166) and `merra-2.py` (lines 131–148) define
identical `ensure_dataset` helpers and near-identical `upload_df`
helpers (both load with `WRITE_APPEND`; only the AirNow variant has the
empty-dataframe guard). -/

namespace Merra2

/-- `merra-2.py` lines 131–139: `try: get_dataset; return except
Exception: create_dataset` — any failure of the existence check leads to
creation; only a `create_dataset` failure propagates. -/
def ensure_dataset (check create : Except BQErr Unit)
    (dataset_id location : String) : Except BQErr (List BQAction) :=
  match check with
  | .ok _ => .ok [.getDataset dataset_id]
  | .error _ =>
    match create with
    | .ok _ => .ok [.getDataset dataset_id, .createDataset dataset_id location]
    | .error e => .error e

/-- `merra-2.py` lines 141–148: load with `WRITE_APPEND`; no
empty-table guard (the caller checks `df.empty` before calling). -/
def upload_df {α : Type} (w : Warehouse α) (df : List α)
    (project dataset table : String) : Warehouse α × List BQAction :=
  let dest := project ++ "." ++ dataset ++ "." ++ table
  (applyLoad w dest .append df, [.loadJob dest .append df.length])

end Merra2

namespace Airnow

/-- `airnow.py` lines 145–153: identical to `Merra2.ensure_dataset`. -/
def ensure_dataset (check create : Except BQErr Unit)
    (dataset_id location : String) : Except BQErr (List BQAction) :=
  match check with
  | .ok _ => .ok [.getDataset dataset_id]
  | .error _ =>
    match create with
    | .ok _ => .ok [.getDataset dataset_id, .createDataset dataset_id location]
    | .error e => .error e

/-- `airnow.py` lines 155–166: `if df.empty: log; return` — no remote
call at all — otherwise load with `WRITE_APPEND`. -/
def upload_df {α : Type} (w : Warehouse α) (df : List α)
    (project dataset table : String) : Warehouse α × List BQAction :=
  if df.isEmpty then (w, [])
  else
    let dest := project ++ "." ++ dataset ++ "." ++ table
    (applyLoad w dest .append df, [.loadJob dest .append df.length])

end Airnow

/-! ## `src/etl/airnow&merra-2/merra-2.py` — normalizer and driver

A MERRA-2 granule opened by xarray is modelled as `M2Dataset`: the list
of data-variable names plus one `M2Row` per (time, lat, lon) grid cell
that `Dataset.to_dataframe().reset_index()` would emit.  A variable
value of `none` models NaN; coordinates are never NaN. -/

namespace Merra2

/-- The `MERRA2_KEEP_VARS` default allow-list. -/
def KEEP_VARS : List String :=
  ["T2M", "T2MDEW", "RH2M", "QV2M", "U10M", "V10M", "PS", "SLP", "TS"]

/-- Python's float `%` (sign of the divisor; floor convention). -/
def fmod (a b : ℚ) : ℚ := a - b * ⌊a / b⌋

/-- `to_minus180_180(arr) = ((arr + 180) % 360) - 180` (line 96). -/
def to_minus180_180 (x : ℚ) : ℚ := fmod (x + 180) 360 - 180

/-- `min` of a nonempty list of rationals (Python `min`). -/
def listMin : List ℚ → ℚ
  | [] => 0
  | x :: xs => xs.foldl min x

/-- `max` of a nonempty list of rationals (Python `max`). -/
def listMax : List ℚ → ℚ
  | [] => 0
  | x :: xs => xs.foldl max x

/-- `get_bbox(poly)` (lines 99–101): `(min lons, min lats, max lons,
max lats)`. -/
def get_bbox (poly : List (ℚ × ℚ)) : ℚ × ℚ × ℚ × ℚ :=
  (listMin (poly.map Prod.fst), listMin (poly.map Prod.snd),
   listMax (poly.map Prod.fst), listMax (poly.map Prod.snd))

def lon_min : ℚ := (get_bbox polygon_coords).1
def lat_min : ℚ := (get_bbox polygon_coords).2.1
def lon_max : ℚ := (get_bbox polygon_coords).2.2.1
def lat_max : ℚ := (get_bbox polygon_coords).2.2.2

/-- One row of `ds.to_dataframe().reset_index()`: the three index
coordinates plus the data-variable columns (name, value); `none` models
NaN. -/
structure M2Row where
  time : ℚ
  lat : ℚ
  lon : ℚ
  vals : List (String × Option ℚ)
deriving DecidableEq

/-- An opened granule: its data-variable names and its flattened grid
cells. -/
structure M2Dataset where
  data_vars : List String
  rows : List M2Row
deriving DecidableEq

/-- `float(ds.lon.max())`: `none` when there are no cells (the real
call would raise, which line 111's bare `except: pass` swallows). -/
def lonMax? : List M2Row → Option ℚ
  | [] => none
  | r :: rs => some ((rs.map M2Row.lon).foldl max r.lon)

/-- Stable insertion of a row into a lon-sorted list (for
`sortby("lon")`). -/
def insertByLon (r : M2Row) : List M2Row → List M2Row
  | [] => [r]
  | x :: xs => if x.lon ≤ r.lon then x :: insertByLon r xs else r :: x :: xs

/-- `sortby("lon")`. -/
def sortByLon : List M2Row → List M2Row
  | [] => []
  | x :: xs => insertByLon x (sortByLon xs)

/-- Lines 107–112: if the dataset's longitudes use the 0..360
convention (`max > 180`), rewrite them to -180..180 and re-sort; any
exception (e.g. an empty coordinate) is swallowed and the dataset is
left unchanged. -/
def normalizeLon (rows : List M2Row) : List M2Row :=
  match lonMax? rows with
  | none => rows
  | some m =>
    if m > 180 then
      sortByLon (rows.map fun r => { r with lon := to_minus180_180 r.lon })
    else rows

/-- Line 114: `ds.sel(lat=slice(lat_min, lat_max), lon=slice(lon_min,
lon_max))` — label-based slicing keeps both endpoints. -/
def clipRows (rows : List M2Row) : List M2Row :=
  rows.filter fun r =>
    decide (lat_min ≤ r.lat) && decide (r.lat ≤ lat_max) &&
    decide (lon_min ≤ r.lon) && decide (r.lon ≤ lon_max)

/-- `ds_clip[present]`: keep only the variables in `present`, in
`present`'s order (xarray selects in the order of the given list). -/
def selectVars (present : List String) (r : M2Row) : M2Row :=
  { r with vals := present.filterMap fun v =>
      (r.vals.find? fun p => p.1 == v).map fun p => (v, p.2) }

/-- `df.dropna(how="any")` keeps a row iff no column is NaN; the
coordinate columns are never NaN here. -/
def rowComplete (r : M2Row) : Bool := r.vals.all fun p => p.2.isSome

/-- The output table: its column order and its surviving rows. -/
structure RowTable where
  cols : List String
  rows : List M2Row
deriving DecidableEq

/-- `ds_to_dataframe(ds, keep_vars)` (lines 106–129): longitude
normalization, bounding-box clip, allow-list restriction (only when
some requested name is present), rename of the coordinates, `dropna`,
polygon mask (skipped on an empty frame), and the
`time, latitude, longitude` column reorder. -/
def ds_to_dataframe (ds : M2Dataset) (keep_vars : List String) : RowTable :=
  let clipped := clipRows (normalizeLon ds.rows)
  let kept :=
    if !keep_vars.isEmpty then
      let present := keep_vars.filter fun v => ds.data_vars.contains v
      if !present.isEmpty then (present, clipped.map (selectVars present))
      else (ds.data_vars, clipped)
    else (ds.data_vars, clipped)
  let complete := kept.2.filter rowComplete
  let surviving :=
    if complete.isEmpty then complete
    else complete.filter fun r => containsPoint polygon_coords (r.lon, r.lat)
  { cols := ["time", "latitude", "longitude"] ++ kept.1, rows := surviving }

/-- Outcome of the per-file body of the driver loop (lines 170–197):
either `xr.open_dataset` raised, or it yielded a dataset `ds`;
`postOk` is whether the steps after `ds_to_dataframe` (time cast,
extra columns, upload) ran without an exception. -/
inductive FileOutcome where
  | openFail
  | opened (ds : M2Dataset) (postOk : Bool)

/-- Outcome of one granule of the driver loop: `ea.download` raised, or
returned `saved_paths` (possibly `None`, read as `[]`). -/
inductive GranOutcome where
  | dlFail
  | dlOk (files : Option (List FileOutcome))

/-- Rows a single file contributes to `loaded_total`: nothing on an
exception, nothing when the filtered frame is empty, nothing when a
later step raised, else the frame's row count. -/
def fileRows : FileOutcome → Nat
  | .openFail => 0
  | .opened ds postOk =>
    let df := ds_to_dataframe ds KEEP_VARS
    if df.rows.isEmpty then 0
    else if postOk then df.rows.length else 0

/-- Rows a granule contributes. -/
def granRows : GranOutcome → Nat
  | .dlFail => 0
  | .dlOk none => 0
  | .dlOk (some fs) => (fs.map fileRows).sum

/-- The per-file accumulator step of the loop body: every exception is
caught (`except Exception as e: logger.error...`), the file is cleaned
up, and the loop continues. -/
def processFile (acc : Nat) (f : FileOutcome) : Nat :=
  match f with
  | .openFail => acc
  | .opened ds postOk =>
    let df := ds_to_dataframe ds KEEP_VARS
    if df.rows.isEmpty then acc
    else if postOk then acc + df.rows.length else acc

/-- The per-granule step: a download exception is caught and the
granule skipped (`continue`). -/
def processGranule (acc : Nat) (g : GranOutcome) : Nat :=
  match g with
  | .dlFail => acc
  | .dlOk none => acc
  | .dlOk (some fs) => fs.foldl processFile acc

/-- The run summary `{"rows_total": ..., "granules": ...}`. -/
structure RunSummary where
  rows_total : Nat
  granules : Nat
deriving DecidableEq

/-- `run_ingest()` (lines 153–200): config check, `ensure_dataset`,
then the per-granule loop accumulating `loaded_total`, returning the
summary.  `cfgOk` is whether the three BigQuery env variables are set;
`check`/`create` are the outcomes of the dataset calls. -/
def run_ingest (cfgOk : Bool) (check create : Except BQErr Unit)
    (dataset location : String) (granules : List GranOutcome) :
    Except String RunSummary :=
  if cfgOk then
    match ensure_dataset check create dataset location with
    | .error e => .error e.msg
    | .ok _ => .ok ⟨granules.foldl processGranule 0, granules.length⟩
  else .error "Faltan BQ_PROJECT_ID/BIGQUERY_DATASET_ID/BIGQUERY_TABLE_ID"

end Merra2

/-! ## `src/etl/airnow&merra-2/airnow.py` — `fetch_day`

An AirNow JSON record is modelled with the fields the code touches, all
numeric ones already passed through `pd.to_numeric(errors="coerce")`
(`none` = NaN); every other column passes through `fetch_day`
untouched and is omitted.  The schema matches the shape the script
expects, so the `in df.columns` membership checks hold.  The
`pd.to_datetime` combine of `DateObserved`/`HourObserved` and the
Pacific-time localization chain are third-party and are abstracted as
the function parameters `toLocal` and `tz`; `tzRaises` models the
`except` branch of lines 108–116 that sets the whole column to NaT. -/

namespace Airnow

/-- One record of the AirNow `/aq/data` JSON response. -/
structure AirnowRec where
  dateObserved : String
  hourObserved : Option ℚ
  latitude : Option ℚ
  longitude : Option ℚ
  concentration : Option ℚ
  parameter : String
deriving DecidableEq

/-- One row of the dataframe `fetch_day` returns (coordinates renamed
to lowercase; `inside_poly` and `source` columns added by the code). -/
structure AirnowRow where
  dateObserved : String
  hourObserved : Option ℚ
  latitude : Option ℚ
  longitude : Option ℚ
  concentration : Option ℚ
  parameter : String
  datetime_local : Option ℚ
  time_utc : Option ℚ
  inside_poly : Bool
  source : String
deriving DecidableEq

/-- Lines 97–124: numeric coercion (already reflected in the record),
timestamp combine, polygon filter on (Longitude, Latitude) — NaN
coordinates are never inside — rename, and the `source` column.
Row order is the stable `filter` order. -/
def normalize_records (toLocal : String → Option ℚ → Option ℚ)
    (tz : Option ℚ → Option ℚ) (tzRaises : Bool)
    (data : List AirnowRec) : List AirnowRow :=
  (data.map fun rec =>
    let dl := toLocal rec.dateObserved rec.hourObserved
    { dateObserved := rec.dateObserved
      hourObserved := rec.hourObserved
      latitude := rec.latitude
      longitude := rec.longitude
      concentration := rec.concentration
      parameter := rec.parameter
      datetime_local := dl
      time_utc := if tzRaises then none else tz dl
      inside_poly := containsOpt polygon_coords rec.longitude rec.latitude
      source := "AirNow API" } : List AirnowRow).filter AirnowRow.inside_poly

/-- What `r.json()` produced: an exception, or the parsed record
list. -/
inductive BodyOutcome where
  | jsonBad
  | jsonOk (data : List AirnowRec)

/-- Outcome of one `requests.get` attempt: an HTTP response with a
status, or a raised exception (timeout, connection error). -/
inductive HttpOutcome where
  | resp (status : Nat) (body : BodyOutcome)
  | timeout

/-- Is attempt `i` a non-200 response (retried by the loop)? -/
def isNon200 : HttpOutcome → Bool
  | .resp status _ => status != 200
  | .timeout => false

/-- Lines 77–86: `for tries in range(5): requests.get; break on 200;
sleep(2**tries)` with a `for`-`else` giving up.  `net i` is the outcome
of attempt `i`.  A raised `requests` exception is not caught anywhere
in the script and aborts (`Except.error`).  Returns the sleep trace and
the body (or `none` after five non-200 attempts). -/
def requestLoop (net : Nat → HttpOutcome) :
    Nat → Nat → List Nat → Except String (List Nat × Option BodyOutcome)
  | 0, _, sleeps => .ok (sleeps.reverse, none)
  | fuel + 1, tries, sleeps =>
    match net tries with
    | .timeout => .error "requests.exceptions.Timeout"
    | .resp status body =>
      if status == 200 then .ok (sleeps.reverse, some body)
      else requestLoop net fuel (tries + 1) (2 ^ tries :: sleeps)

/-- `fetch_day` (lines 62–124): the retry loop, the empty returns on
no response / JSON error / empty payload, then the normalization. -/
def fetch_day (toLocal : String → Option ℚ → Option ℚ)
    (tz : Option ℚ → Option ℚ) (tzRaises : Bool)
    (net : Nat → HttpOutcome) :
    Except String (List Nat × List AirnowRow) :=
  match requestLoop net 5 0 [] with
  | .error e => .error e
  | .ok (sleeps, none) => .ok (sleeps, [])
  | .ok (sleeps, some .jsonBad) => .ok (sleeps, [])
  | .ok (sleeps, some (.jsonOk data)) =>
    if data.isEmpty then .ok (sleeps, [])
    else .ok (sleeps, normalize_records toLocal tz tzRaises data)

end Airnow

/-! ## `src/services/earth_data/client.py` — `EarthDataClient.get_data`

A granule's fate is an `EDGran` value; a downloaded file either fails
to open or yields the rows of `ds.to_dataframe().reset_index()`.
The inner `for fp in file_paths` loop re-visits already-processed
paths, but those files were removed (`os.remove`), so re-opening them
fails and is skipped; with removal succeeding — the modelled case —
each file is processed exactly once, when its granule arrives.  The
concatenated result of zero frames is an empty `DataFrame()` with no
columns, on which `_filter_polygon`'s column selection raises a
`KeyError` that nothing catches. -/

namespace EarthData

/-- One row of a TEMPO granule dataframe. -/
structure EDRow where
  time : ℚ
  latitude : ℚ
  longitude : ℚ
  vals : List (Option ℚ)
deriving DecidableEq

/-- What opening the downloaded file produced. -/
inductive EDFile where
  | openFail
  | openedRows (rows : List EDRow)

/-- What one granule produced: a download exception of one of the
caught types (line 134), or a file. -/
inductive EDGran where
  | dlFail
  | dlOk (file : EDFile)

/-- The frames a granule appends (line 147–149: an empty dataframe is
not appended). -/
def granFrames : EDGran → List (List EDRow)
  | .dlFail => []
  | .dlOk .openFail => []
  | .dlOk (.openedRows rows) => if rows.isEmpty then [] else [rows]

/-- `_filter_polygon` (lines 63–80): select the coordinate columns and
mask by the polygon.  On a dataframe without those columns (the empty
`pd.DataFrame()` case) the selection raises a `KeyError`. -/
def _filter_polygon (hasCoordCols : Bool) (data : List EDRow)
    (polygon : List (ℚ × ℚ)) : Except String (List EDRow) :=
  if hasCoordCols then
    .ok (data.filter fun r => containsPoint polygon (r.longitude, r.latitude))
  else .error "KeyError: longitude/latitude not in columns"

/-- `get_data` (lines 82–176): authentication guard, search, early
empty return when no granule matches, per-granule download/parse with
caught failures, concatenation, and the final polygon filter. -/
def get_data (is_authenticated : Bool) (search_results : List EDGran)
    (polygon : List (ℚ × ℚ)) : Except String (List EDRow) :=
  if !is_authenticated then
    .error "Client is not authenticated. Please login first."
  else if search_results.length == 0 then .ok []
  else
    let frames := search_results.foldl (fun acc g => acc ++ granFrames g) []
    _filter_polygon (!frames.isEmpty) frames.flatten polygon

end EarthData

/-! ## `src/etl/extract_load_no2.py` — `extract_and_load_no2` -/

namespace NO2

/-- `df.drop_duplicates()`: keep the first occurrence of each row. -/
def dropDupAux {α : Type} [DecidableEq α] : List α → List α → List α
  | _, [] => []
  | seen, x :: xs =>
    if x ∈ seen then dropDupAux seen xs else x :: dropDupAux (x :: seen) xs

def dropDuplicates {α : Type} [DecidableEq α] (l : List α) : List α :=
  dropDupAux [] l

/-- A row survives `df.dropna()` iff no column is NaN. -/
def edRowComplete (r : EarthData.EDRow) : Bool := r.vals.all Option.isSome

/-- Lines 32–34 of `extract_load_no2.py`: `dropna`, `drop_duplicates`
(the `strftime` re-format of the `time` column changes its textual
representation only and is not modelled). -/
def cleanRows (df : List EarthData.EDRow) : List EarthData.EDRow :=
  dropDuplicates (df.filter edRowComplete)

/-- `extract_and_load_no2` (lines 9–47): extract via the EarthData
client, raise `ValueError` when the extraction is empty, clean, then
upload through `BigQueryClient.upload_data_from_dataframe` to
`earth_data.no2_historical`; an upload exception is logged and
re-raised. -/
def extract_and_load_no2 (w : Warehouse EarthData.EDRow)
    (is_authenticated : Bool) (search_results : List EarthData.EDGran)
    (polygon : List (ℚ × ℚ)) (check create : Except BQErr Unit)
    (projectId : Option String) (location : String) :
    Except String (Warehouse EarthData.EDRow × List BQAction) :=
  match EarthData.get_data is_authenticated search_results polygon with
  | .error e => .error e
  | .ok df =>
    if df.isEmpty then .error "No data extracted from EarthData."
    else
      match BigQueryClient.upload_data_from_dataframe w check create
          (cleanRows df) "earth_data" "no2_historical" projectId location with
      | .error e => .error e.msg
      | .ok out => .ok out

end NO2

namespace Airnow

/-- `fetch_year` (lines 126–140): per-day loop; a day's exception
propagates (nothing catches it), an empty day is only logged, and the
non-empty frames are concatenated in day order.  Each element of
`days` is the result of that day's `fetch_day` call (sleep trace
dropped by the caller). -/
def fetch_year (days : List (Except String (List Nat × List AirnowRow))) :
    Except String (List AirnowRow) :=
  match days with
  | [] => .ok []
  | d :: rest =>
    match d with
    | .error e => .error e
    | .ok (_, df) =>
      match fetch_year rest with
      | .error e => .error e
      | .ok acc => .ok (df ++ acc)

/-- `airnow.py`'s `run_ingest` (lines 171–181): `ensure_dataset`, one
`fetch_year`, an early return when the year frame is empty, else a
single `upload_df`. -/
def run_ingest (w : Warehouse AirnowRow) (check create : Except BQErr Unit)
    (project dataset table location : String)
    (days : List (Except String (List Nat × List AirnowRow))) :
    Except String (Warehouse AirnowRow × List BQAction) :=
  match ensure_dataset check create dataset location with
  | .error e => .error e.msg
  | .ok _ =>
    match fetch_year days with
    | .error e => .error e
    | .ok df =>
      if df.isEmpty then .ok (w, [])
      else .ok (upload_df w df project dataset table)

end Airnow

/-! ## Helper lemmas -/

/-- Membership through the `if df.empty`-guarded mask step of
`ds_to_dataframe`: a surviving row was already present and satisfies
the mask predicate. -/
theorem mem_maskStep {α : Type} {l : List α} {p : α → Bool} {r : α}
    (h : r ∈ if l.isEmpty then l else l.filter p) : r ∈ l ∧ p r = true := by
  split at h
  · rename_i he
    rw [List.isEmpty_iff] at he
    subst he
    simp at h
  · exact ⟨(List.mem_filter.1 h).1, (List.mem_filter.1 h).2⟩

/-- Anything inside `NO2.dropDupAux` came from the input list. -/
theorem mem_of_mem_dropDupAux {α : Type} [DecidableEq α] {x : α} :
    ∀ {seen l : List α}, x ∈ NO2.dropDupAux seen l → x ∈ l := by
  intro seen l
  induction l generalizing seen with
  | nil => intro h; simp [NO2.dropDupAux] at h
  | cons y ys ih =>
    intro h
    rw [NO2.dropDupAux] at h
    split at h
    · exact List.mem_cons_of_mem _ (ih h)
    · rcases List.mem_cons.1 h with h' | h'
      · exact h' ▸ List.mem_cons_self _ _
      · exact List.mem_cons_of_mem _ (ih h')

/-- `List.foldl` over `Merra2.processFile` adds exactly the per-file
row contributions. -/
theorem foldl_processFile (fs : List Merra2.FileOutcome) :
    ∀ acc : Nat, fs.foldl Merra2.processFile acc =
      acc + (fs.map Merra2.fileRows).sum := by
  induction fs with
  | nil => intro acc; simp
  | cons f fs ih =>
    intro acc
    have hstep : Merra2.processFile acc f = acc + Merra2.fileRows f := by
      cases f with
      | openFail => simp [Merra2.processFile, Merra2.fileRows]
      | opened ds postOk =>
        simp only [Merra2.processFile, Merra2.fileRows]
        split
        · simp
        · split <;> simp
    simp only [List.foldl_cons, List.map_cons, List.sum_cons, ih, hstep]
    omega

/-- `List.foldl` over `Merra2.processGranule` adds exactly the
per-granule row contributions. -/
theorem foldl_processGranule (gs : List Merra2.GranOutcome) :
    ∀ acc : Nat, gs.foldl Merra2.processGranule acc =
      acc + (gs.map Merra2.granRows).sum := by
  induction gs with
  | nil => intro acc; simp
  | cons g gs ih =>
    intro acc
    have hstep : Merra2.processGranule acc g = acc + Merra2.granRows g := by
      cases g with
      | dlFail => simp [Merra2.processGranule, Merra2.granRows]
      | dlOk files =>
        cases files with
        | none => simp [Merra2.processGranule, Merra2.granRows]
        | some fs =>
          simp [Merra2.processGranule, Merra2.granRows, foldl_processFile]
    simp only [List.foldl_cons, List.map_cons, List.sum_cons, ih, hstep]
    omega

/-! ## Claims -/

/-- C2 — Geofence invariant: every row of a Row Table produced by the
MERRA-2 normalizer `ds_to_dataframe`, and every row returned by the
AirNow normalization inside `fetch_day`, has coordinates classified as
inside the California polygon by the containment test; rows outside are
dropped. -/
theorem normalizer_geofence_invariant :
    (∀ (ds : Merra2.M2Dataset) (kv : List String) (r : Merra2.M2Row),
        r ∈ (Merra2.ds_to_dataframe ds kv).rows →
        containsPoint polygon_coords (r.lon, r.lat) = true) ∧
    (∀ (toLocal : String → Option ℚ → Option ℚ) (tz : Option ℚ → Option ℚ)
        (tzRaises : Bool) (data : List Airnow.AirnowRec)
        (row : Airnow.AirnowRow),
        row ∈ Airnow.normalize_records toLocal tz tzRaises data →
        containsOpt polygon_coords row.longitude row.latitude = true) := by
  constructor
  · intro ds kv r h
    simp only [Merra2.ds_to_dataframe] at h
    exact (mem_maskStep h).2
  · intro toLocal tz tzRaises data row h
    rw [Airnow.normalize_records] at h
    have h' := List.mem_filter.1 h
    obtain ⟨rec, _, hfeq⟩ := List.mem_map.1 h'.1
    have hp := h'.2
    subst hfeq
    simpa [Airnow.AirnowRow.inside_poly] using hp

/-- C2 witness: a concrete one-cell MERRA-2 dataset whose row survives
the pipeline, instantiating the invariant. -/
theorem normalizer_geofence_invariant_witness :
    containsPoint polygon_coords
      ((Merra2.M2Row.mk 0 37 (-119.5) [("T2M", some 1)]).lon,
       (Merra2.M2Row.mk 0 37 (-119.5) [("T2M", some 1)]).lat) = true :=
  normalizer_geofence_invariant.1
    ⟨["T2M"], [⟨0, 37, -119.5, [("T2M", some 1)]⟩]⟩ Merra2.KEEP_VARS
    ⟨0, 37, -119.5, [("T2M", some 1)]⟩ (by with_unfolding_all decide)

/-- C3 counterexample: the AirNow path never drops null rows.  A record
whose `Concentration` coerced to NaN (`none`), with valid in-polygon
coordinates, survives `fetch_day` unchanged — the returned table is
exactly this one row with a null column. -/
theorem airnow_null_row_retained :
    Airnow.fetch_day (fun _ _ => none) id false
      (fun _ => .resp 200 (.jsonOk
        [⟨"2024-01-01", some 5, some 37, some (-119.5), none, "OZONE"⟩])) =
    .ok ([], [⟨"2024-01-01", some 5, some 37, some (-119.5), none, "OZONE",
               none, none, true, "AirNow API"⟩]) := by
  with_unfolding_all rfl

/-- C3 (amended) — null rows are dropped before upload in the MERRA-2
normalizer (`dropna` in `ds_to_dataframe`) and in the NO2 pipeline
(`df.dropna()` in `extract_and_load_no2`); the AirNow path does not
drop them. -/
theorem null_drop_merra2_and_no2 :
    (∀ (ds : Merra2.M2Dataset) (kv : List String) (r : Merra2.M2Row),
        r ∈ (Merra2.ds_to_dataframe ds kv).rows →
        Merra2.rowComplete r = true) ∧
    (∀ (df : List EarthData.EDRow) (r : EarthData.EDRow),
        r ∈ NO2.cleanRows df → NO2.edRowComplete r = true) := by
  constructor
  · intro ds kv r h
    simp only [Merra2.ds_to_dataframe] at h
    exact (List.mem_filter.1 (mem_maskStep h).1).2
  · intro df r h
    rw [NO2.cleanRows, NO2.dropDuplicates] at h
    exact (List.mem_filter.1 (mem_of_mem_dropDupAux h)).2

/-- C3 witness: the surviving concrete MERRA-2 row is fully populated. -/
theorem null_drop_merra2_and_no2_witness :
    Merra2.rowComplete ⟨0, 38, -120.5, [("PS", some 3)]⟩ = true :=
  null_drop_merra2_and_no2.1
    ⟨["PS"], [⟨0, 38, -120.5, [("PS", some 3)]⟩]⟩ Merra2.KEEP_VARS
    ⟨0, 38, -120.5, [("PS", some 3)]⟩ (by with_unfolding_all decide)

/-- C9 — allow-list fallback in `ds_to_dataframe`: when `keep_vars` is
non-empty but none of its names is among the dataset's variables, no
column restriction happens and the output has every variable of the
dataset; the restriction applies exactly when some requested name is
present. -/
theorem keep_vars_fallback :
    ∀ (ds : Merra2.M2Dataset) (kv : List String),
      (kv ≠ [] → kv.filter (fun v => ds.data_vars.contains v) = [] →
        (Merra2.ds_to_dataframe ds kv).cols =
          ["time", "latitude", "longitude"] ++ ds.data_vars) ∧
      (kv.filter (fun v => ds.data_vars.contains v) ≠ [] →
        (Merra2.ds_to_dataframe ds kv).cols =
          ["time", "latitude", "longitude"] ++
            kv.filter (fun v => ds.data_vars.contains v)) := by
  intro ds kv
  constructor
  · intro hkv hnone
    have hno : ¬ ∃ x, x ∈ kv ∧ x ∈ ds.data_vars := by
      rw [List.filter_eq_nil_iff] at hnone
      rintro ⟨x, hx, hmem⟩
      exact hnone x hx (by simpa using hmem)
    simp [Merra2.ds_to_dataframe, List.isEmpty_iff, hkv, hno]
  · intro hsome
    have hkv : kv ≠ [] := by
      intro he
      subst he
      simp at hsome
    have hyes : ∃ x, x ∈ kv ∧ x ∈ ds.data_vars := by
      obtain ⟨y, hy⟩ := List.exists_mem_of_ne_nil _ hsome
      have hm := List.mem_filter.1 hy
      exact ⟨y, hm.1, by simpa using hm.2⟩
    simp [Merra2.ds_to_dataframe, List.isEmpty_iff, hkv, hyes]

/-- C9 witness: dataset with variable `FOO`, allow-list `BAR` — the
output keeps `FOO`. -/
theorem keep_vars_fallback_witness :
    (Merra2.ds_to_dataframe ⟨["FOO"], []⟩ ["BAR"]).cols =
      ["time", "latitude", "longitude"] ++ ["FOO"] :=
  (keep_vars_fallback ⟨["FOO"], []⟩ ["BAR"]).1 (by decide) (by decide)

/-- C1 counterexample: in `EarthDataClient.get_data` a run over a
single granule whose download fails is aborted — the empty
concatenated frame has no coordinate columns, so the final
`_filter_polygon` raises instead of returning a zero-row result. -/
theorem get_data_single_failure_aborts :
    EarthData.get_data true [.dlFail] polygon_coords =
      .error "KeyError: longitude/latitude not in columns" := by rfl

/-- C1 (amended) — per-granule failure isolation holds for the MERRA-2
driver: whatever each granule's fate, `run_ingest` completes with a
summary whose `rows_total` counts exactly the rows of the files that
were processed and uploaded successfully; in particular (scenario A)
with granule 1 succeeding on a one-row dataset and granule 2 failing to
download, the summary is 1 row over 2 granules.  (In
`EarthDataClient.get_data`, by contrast, a failure is only survivable
when some other granule produced data — see the counterexample.) -/
theorem run_ingest_isolates_granule_failures :
    (∀ (dataset location : String) (gs : List Merra2.GranOutcome),
        Merra2.run_ingest true (.ok ()) (.ok ()) dataset location gs =
          .ok ⟨(gs.map Merra2.granRows).sum, gs.length⟩) ∧
    Merra2.run_ingest true (.ok ()) (.ok ()) "d" "US"
        [.dlOk (some [.opened ⟨["T2M"], [⟨0, 37, -119.5, [("T2M", some 1)]⟩]⟩ true]),
         .dlFail] =
      .ok ⟨1, 2⟩ := by
  constructor
  · intro dataset location gs
    simp [Merra2.run_ingest, Merra2.ensure_dataset, foldl_processGranule]
  · with_unfolding_all rfl

/-- C4 counterexample: a run of the NO2 pipeline whose catalog search
finds zero granules raises `ValueError("No data extracted from
EarthData.")` instead of completing with an empty result. -/
theorem no2_empty_search_raises :
    NO2.extract_and_load_no2 [] true [] polygon_coords (.ok ()) (.ok ())
      (some "proj") "US" = .error "No data extracted from EarthData." := by rfl

/-- C4 (amended) — elsewhere an empty search is indeed not an error:
`EarthDataClient.get_data` returns an empty table, and the MERRA-2
driver over zero granules completes with `rows_total = 0`. -/
theorem empty_search_not_error_elsewhere :
    (∀ polygon : List (ℚ × ℚ), EarthData.get_data true [] polygon = .ok []) ∧
    (∀ dataset location : String,
        Merra2.run_ingest true (.ok ()) (.ok ()) dataset location [] =
          .ok ⟨0, 0⟩) := by
  exact ⟨fun _ => rfl, fun _ _ => rfl⟩

/-- C5 counterexample: `BigQueryClient.upload_data_from_dataframe`
given an empty table still issues the load job — the call trace of an
empty-table upload contains exactly one (zero-row) load request. -/
theorem bq_empty_table_load_issued :
    BigQueryClient.upload_data_from_dataframe ([] : Warehouse Unit)
      (.ok ()) (.ok ()) [] "d" "t" (some "p") "US" =
      .ok ([("p.d.t", [])],
           [.getDataset "d", .loadJob "p.d.t" .truncate 0]) ∧
    countLoads [.getDataset "d", .loadJob "p.d.t" .truncate 0] = 1 := by
  exact ⟨rfl, rfl⟩

/-- C5 (amended) — only the AirNow `upload_df` no-ops on an empty
table (no remote call at all); the shared
`BigQueryClient.upload_data_from_dataframe` issues exactly one load
job on every call, empty table included. -/
theorem empty_upload_noop_airnow_only :
    (∀ (α : Type) (w : Warehouse α) (project dataset table : String),
        Airnow.upload_df w ([] : List α) project dataset table = (w, [])) ∧
    (∀ (α : Type) (w : Warehouse α) (df : List α) (ds tid : String)
        (pid : Option String) (loc : String),
        (BigQueryClient.upload_data_from_dataframe w (.ok ()) (.ok ())
            df ds tid pid loc).map (fun out => countLoads out.2) = .ok 1) := by
  constructor
  · intro α w project dataset table
    simp [Airnow.upload_df]
  · intro α w df ds tid pid loc
    simp [BigQueryClient.upload_data_from_dataframe,
          BigQueryClient.ensureDatasetBlock, countLoads, Except.map]

/-- C6 counterexample: a non-"not found" existence-check error (a 403)
is not re-raised by the script-level `ensure_dataset` helpers — both
swallow it and go on to create the dataset. -/
theorem ensure_dataset_swallows_errors :
    isNotFound ⟨"403 Access Denied", some 403⟩ = false ∧
    Merra2.ensure_dataset (.error ⟨"403 Access Denied", some 403⟩) (.ok ())
        "d" "US" = .ok [.getDataset "d", .createDataset "d" "US"] ∧
    Airnow.ensure_dataset (.error ⟨"403 Access Denied", some 403⟩) (.ok ())
        "d" "US" = .ok [.getDataset "d", .createDataset "d" "US"] := by
  exact ⟨by decide, rfl, rfl⟩

/-- C6 (amended) — the if-and-only-if dataset-existence policy holds
for the shared `BigQueryClient` (create exactly on a "not found"
check error, re-raise any other), while the `ensure_dataset` helpers in
`airnow.py`/`merra-2.py` create on every existence-check failure and
never re-raise it. -/
theorem bq_dataset_policy :
    (∀ (create : Except BQErr Unit) (ds loc : String),
        BigQueryClient.ensureDatasetBlock (.ok ()) create ds loc =
          .ok [.getDataset ds]) ∧
    (∀ (e : BQErr) (ds loc : String), isNotFound e = true →
        BigQueryClient.ensureDatasetBlock (.error e) (.ok ()) ds loc =
          .ok [.getDataset ds, .createDataset ds loc]) ∧
    (∀ (e : BQErr) (create : Except BQErr Unit) (ds loc : String),
        isNotFound e = false →
        BigQueryClient.ensureDatasetBlock (.error e) create ds loc =
          .error e) ∧
    (∀ (e : BQErr) (ds loc : String),
        Merra2.ensure_dataset (.error e) (.ok ()) ds loc =
          .ok [.getDataset ds, .createDataset ds loc]) := by
  refine ⟨fun create ds loc => rfl, ?_, ?_, fun e ds loc => rfl⟩
  · intro e ds loc h
    simp [BigQueryClient.ensureDatasetBlock, h]
  · intro e create ds loc h
    simp [BigQueryClient.ensureDatasetBlock, h]

/-- C6 witness: a genuine 404 "Not found" error makes the shared
client create the dataset in the configured location. -/
theorem bq_dataset_policy_witness :
    BigQueryClient.ensureDatasetBlock
      (.error ⟨"404 Not found: Dataset d", some 404⟩) (.ok ()) "d" "US" =
      .ok [.getDataset "d", .createDataset "d" "US"] :=
  bq_dataset_policy.2.1 ⟨"404 Not found: Dataset d", some 404⟩ "d" "US"
    (by decide)

/-- C7 counterexample: a timeout on the very first attempt is not
retried at all — the `requests` exception propagates out of
`fetch_day` (and would abort the whole run), instead of being retried
and eventually yielding an empty table. -/
theorem fetch_day_timeout_uncaught :
    Airnow.fetch_day (fun _ _ => none) id false (fun _ => .timeout) =
      .error "requests.exceptions.Timeout" := by rfl

/-- C7 (amended) — `fetch_day` retries only on a non-200 HTTP status:
five attempts with doubling sleeps 1,2,4,8,16 seconds, after which it
gives up and returns an empty table for the day; a raised timeout is
not caught (see the counterexample). -/
theorem fetch_day_bounded_retry :
    (∀ (toLocal : String → Option ℚ → Option ℚ) (tz : Option ℚ → Option ℚ)
        (tzRaises : Bool) (net : Nat → Airnow.HttpOutcome),
      (∀ i, i < 5 → Airnow.isNon200 (net i) = true) →
      Airnow.fetch_day toLocal tz tzRaises net = .ok ([1, 2, 4, 8, 16], [])) ∧
    (∀ (toLocal : String → Option ℚ → Option ℚ) (tz : Option ℚ → Option ℚ)
        (tzRaises : Bool) (net : Nat → Airnow.HttpOutcome),
      net 0 = .timeout →
      Airnow.fetch_day toLocal tz tzRaises net =
        .error "requests.exceptions.Timeout") := by
  constructor
  · intro toLocal tz tzRaises net h
    have step : ∀ i, i < 5 → ∃ s b, net i = .resp s b ∧ (s == 200) = false := by
      intro i hi
      have hn := h i hi
      cases e : net i with
      | timeout => rw [e] at hn; simp [Airnow.isNon200] at hn
      | resp s b =>
        refine ⟨s, b, rfl, ?_⟩
        rw [e] at hn
        simpa [Airnow.isNon200] using hn
    obtain ⟨s0, b0, e0, n0⟩ := step 0 (by omega)
    obtain ⟨s1, b1, e1, n1⟩ := step 1 (by omega)
    obtain ⟨s2, b2, e2, n2⟩ := step 2 (by omega)
    obtain ⟨s3, b3, e3, n3⟩ := step 3 (by omega)
    obtain ⟨s4, b4, e4, n4⟩ := step 4 (by omega)
    simp [Airnow.fetch_day, Airnow.requestLoop, e0, n0, e1, n1, e2, n2,
          e3, n3, e4, n4]
  · intro toLocal tz tzRaises net h
    simp [Airnow.fetch_day, Airnow.requestLoop, h]

/-- C7 witness: a server that answers HTTP 500 on every attempt —
`fetch_day` sleeps 1,2,4,8,16 and returns the empty table. -/
theorem fetch_day_bounded_retry_witness :
    Airnow.fetch_day (fun _ _ => none) id true (fun _ => .resp 500 .jsonBad) =
      .ok ([1, 2, 4, 8, 16], []) :=
  fetch_day_bounded_retry.1 (fun _ _ => none) id true
    (fun _ => .resp 500 .jsonBad) (by decide)

/-- C8 counterexample: `(-1, -1)` is a vertex of the scenario-C
square, yet the containment test classifies it as outside — the
boundary policy is not inclusive. -/
theorem vertex_classified_outside :
    ((-1 : ℚ), (-1 : ℚ)) ∈ scenarioSquare ∧
      containsPoint scenarioSquare (-1, -1) = false := by
  with_unfolding_all decide

/-- C8 (amended) — the containment test returns one boolean per query
point, by the even-odd crossings-multiply rule: interior points are
inside, exterior points outside, and boundary points are not uniformly
classified (the top-right vertex of the scenario-C square is inside
while the bottom-left one is outside — see the counterexample). -/
theorem contains_mask_per_point :
    (∀ (poly pts : List (ℚ × ℚ)),
        (containsPoints poly pts).length = pts.length) ∧
    containsPoint scenarioSquare (0, 0) = true ∧
    containsPoint scenarioSquare (2, 2) = false ∧
    containsPoint scenarioSquare (1, 1) = true := by
  refine ⟨fun poly pts => ?_, ?_, ?_, ?_⟩
  · simp [containsPoints]
  · with_unfolding_all decide
  · with_unfolding_all decide
  · with_unfolding_all decide

/-- C10 — the shared uploader always loads with `WRITE_TRUNCATE`:
after any call the destination table holds exactly the uploaded rows,
whatever was there before; repeated uploads replace, never
accumulate. -/
theorem bq_upload_truncate_replaces :
    (∀ (α : Type) (w : Warehouse α) (df : List α) (ds tid : String)
        (pid : Option String) (loc : String),
        BigQueryClient.upload_data_from_dataframe w (.ok ()) (.ok ())
            df ds tid pid loc =
          .ok (applyLoad w (BigQueryClient.destination pid ds tid)
                 .truncate df,
               [.getDataset ds,
                .loadJob (BigQueryClient.destination pid ds tid)
                  .truncate df.length])) ∧
    (∀ (α : Type) (w : Warehouse α) (dest : String) (df : List α),
        getTable (applyLoad w dest .truncate df) dest = df) := by
  constructor
  · intro α w df ds tid pid loc
    rfl
  · intro α w dest df
    exact getTable_setTable w dest df
